import Mathlib

/-!
Verification of the minutiae-extraction and template-rendering core of the
Deepfake-Fingerprint-Generation-Pipeline repository
(src/preprocessing/minutiae_extraction.py, src/preprocessing/template_rendering.py).

The Python code is shallowly embedded: file contents are `String`s / `List Char`,
machine floats are modelled by exact rationals (every numeric literal involved —
11.25, 0.25 steps, 0.9, integer coordinates — is exactly representable in binary
floating point, so the rational model agrees with the float computation on all
inputs the claims touch; the one genuinely irrational step, the degrees→radians
multiplication by numpy's pi, multiplies by the exact rational value of the IEEE
double `np.pi`, ignoring the final rounding of the product which is below 1e-12),
and the external numeric libraries (scipy's gaussian filter, numpy's cos/sin,
skimage's line_nd) are parameters of the rendering definitions.
-/

/-- Python `str.isspace` characters relevant to `strip()` / `split()`. -/
def pyIsSpace (c : Char) : Bool :=
  c = ' ' || c = '\t' || c = '\n' || c = '\x0b' || c = '\x0c' || c = '\r'

/-- Python `str.strip()` on a character list. -/
def pyStripChars (l : List Char) : List Char :=
  ((l.dropWhile pyIsSpace).reverse.dropWhile pyIsSpace).reverse

/-- Split a character list at every character satisfying `p`, keeping empty
pieces — the semantics of Python `str.split(sep)` with a one-character `sep`
(when `p` matches only that character). -/
def splitOnPred (p : Char → Bool) (l : List Char) : List (List Char) :=
  l.foldr
    (fun x acc =>
      match acc with
      | [] => [[x]]
      | a :: rest => if p x then [] :: a :: rest else (x :: a) :: rest)
    [[]]

/-- Python `str.split()` with no argument: split on whitespace runs, dropping
empty tokens. -/
def pyTokens (l : List Char) : List (List Char) :=
  (splitOnPred pyIsSpace l).filter (fun t => !t.isEmpty)

/-- Value of a decimal digit character. -/
def digitVal (c : Char) : Option ℕ :=
  if '0' ≤ c ∧ c ≤ '9' then some (c.toNat - '0'.toNat) else none

/-- Decimal value of a (possibly empty) all-digit character list; `none` if a
non-digit occurs.  The empty list evaluates to `0`. -/
def digitsValE (l : List Char) : Option ℕ :=
  l.foldl (fun acc c => acc.bind (fun n => (digitVal c).map (fun d => 10 * n + d))) (some 0)

/-- Decimal value of a nonempty all-digit character list. -/
def digitsToNat (l : List Char) : Option ℕ :=
  if l.isEmpty then none else digitsValE l

/-- Sign handling shared by Python `int()` / `float()`: an optional leading
`+` or `-`. Returns (is-negative, remainder). -/
def signSplit (l : List Char) : Bool × List Char :=
  match l with
  | '-' :: rest => (true, rest)
  | '+' :: rest => (false, rest)
  | _ => (false, l)

/-- Python `int(s)` on a plain decimal literal: surrounding whitespace and an
optional sign are allowed, then one or more digits.  (Underscore separators and
non-ASCII digits, which the detector fields never contain, are not modelled.) -/
def pyParseInt (l : List Char) : Option ℤ :=
  let t := pyStripChars l
  let (neg, body) := signSplit t
  (digitsToNat body).map (fun n => if neg then -(n : ℤ) else (n : ℤ))

/-- Mantissa of a Python float literal: `digits`, `digits.digits`, `digits.` or
`.digits`. -/
def mantissaVal (l : List Char) : Option ℚ :=
  match splitOnPred (fun c => c = '.') l with
  | [ip] => (digitsToNat ip).map (fun n => (n : ℚ))
  | [ip, fp] =>
    if ip.isEmpty && fp.isEmpty then none
    else
      (digitsValE ip).bind (fun i =>
        (digitsValE fp).map (fun f => (i : ℚ) + (f : ℚ) / (10 : ℚ) ^ fp.length))
  | _ => none

/-- Exponent of a Python float literal: optional sign then digits (no inner
whitespace). -/
def expVal (l : List Char) : Option ℤ :=
  let (neg, body) := signSplit l
  (digitsToNat body).map (fun n => if neg then -(n : ℤ) else (n : ℤ))

/-- Python `float(s)` on a finite decimal literal (optionally with an `e`/`E`
exponent); surrounding whitespace and an optional sign are allowed.  The
special values `inf`/`nan`, which never occur in the pipeline's data, are not
modelled. -/
def pyParseFloat (l : List Char) : Option ℚ :=
  let t := pyStripChars l
  let (neg, body) := signSplit t
  let res : Option ℚ :=
    match splitOnPred (fun c => c = 'e' || c = 'E') body with
    | [m] => mantissaVal m
    | [m, ex] => (mantissaVal m).bind (fun mv => (expVal ex).map (fun ev => mv * (10 : ℚ) ^ ev))
    | _ => none
  res.map (fun q => if neg then -q else q)

/-- Test whether the second list starts with the first. -/
def startsWithList : List Char → List Char → Bool
  | [], _ => true
  | _ :: _, [] => false
  | a :: as, b :: bs => a = b && startsWithList as bs

/-- Python substring containment `needle in hay`. -/
def hasSubstr (needle : List Char) : List Char → Bool
  | [] => needle.isEmpty
  | c :: rest => startsWithList needle (c :: rest) || hasSubstr needle rest

/-- Decimal representation of an integer, as Python `str(int)` prints it. -/
def intRepr (i : ℤ) : String :=
  if i < 0 then "-" ++ String.mk (Nat.toDigits 10 i.natAbs)
  else String.mk (Nat.toDigits 10 i.natAbs)

/-- Python `%` on rationals (sign follows the divisor), the semantics of the
float `%` in `(90 - 11.25*u) % 360`. -/
def pyMod (a b : ℚ) : ℚ := a - b * ⌊a / b⌋

/-- The angle conversion of `convert_min_to_txt` (minutiae_extraction.py line
183): NIST direction unit to degrees, `(90 - 11.25*u) % 360`. -/
def orientationDeg (u : ℤ) : ℚ := pyMod (90 - 11.25 * (u : ℚ)) 360

/-- Python `str(float)` (shortest round-trip repr) on the values produced by
`orientationDeg`: nonnegative multiples of one quarter, printed with the
minimal decimal fraction (`90.0`, `67.5`, `348.75`...). -/
def formatQuarters (q : ℚ) : String :=
  let k : ℕ := (⌊q * 4⌋).toNat
  let ip := String.mk (Nat.toDigits 10 (k / 4))
  ip ++ (if k % 4 = 0 then ".0" else if k % 4 = 1 then ".25" else if k % 4 = 2 then ".5" else ".75")

/-- The colon-split fields of one (stripped) raw detector record line, as
computed by `line.split(':')` in `convert_min_to_txt`. -/
def recordFields (line : String) : List (List Char) :=
  splitOnPred (fun c => c = ':') (pyStripChars line.data)

/-- One iteration of the record loop of `convert_min_to_txt`
(minutiae_extraction.py lines 167-200): strip the line, skip it when blank,
split on `:`, require at least 5 fields, parse `x,y` from field 1, the integer
direction unit from field 2 and the quality float from field 3, drop the record
when the quality is below the threshold, derive the type code from the `BIF`
marker in field 4, and produce the formatted output record.  Every failure mode
(too few fields, unpacking `x,y`, a non-numeric field) skips the single line,
yielding `none`. -/
def parse_record_line (quality_threshold : ℚ) (line : String) : Option String :=
  let l := pyStripChars line.data
  if l.isEmpty then none
  else
    match recordFields line with
    | _f0 :: f1 :: f2 :: f3 :: f4 :: _ =>
      match splitOnPred (fun c => c = ',') f1 with
      | [xs, ys] =>
        match pyParseInt xs, pyParseInt ys, pyParseInt f2, pyParseFloat f3 with
        | some x, some y, some u, some q =>
          if q < quality_threshold then none
          else
            let mnType := pyStripChars f4
            let t : ℤ := if hasSubstr "BIF".data mnType then 1 else 2
            some (intRepr t ++ " " ++ intRepr x ++ " " ++ intRepr y ++ " "
              ++ formatQuarters (orientationDeg u))
        | _, _, _, _ => none
      | _ => none
    | _ => none

/-- Model of `convert_min_to_txt` (minutiae_extraction.py lines 142-216) on the list of
lines of a `.min` file: skip the 3-line header, convert each surviving record,
and when at least one record survives return the text written to the output
file — each record followed by the two characters `\` `n` (the source writes
`f"{data}\\n"`, an escaped backslash, not a newline).  `none` models the
no-file-written / `return None` path. -/
def convert_min_to_txt (lines : List String) (quality_threshold : ℚ) : Option String :=
  let minutiae_data := (lines.drop 3).filterMap (parse_record_line quality_threshold)
  if 0 < minutiae_data.length then
    some (String.join (minutiae_data.map (fun d => d ++ "\\n")))
  else none

/-- Non-blank line count used by `convert_all_minutiae_files`
(minutiae_extraction.py line 256): iterate the physical lines of the written
file and count those with a non-whitespace character. -/
def countNonBlankLines (content : String) : ℕ :=
  ((splitOnPred (fun c => c = '\n') content.data).filter
    (fun l => !(pyStripChars l).isEmpty)).length

/-- numpy's default `#` comment stripping in `loadtxt`. -/
def stripComments (l : List Char) : List Char := l.takeWhile (fun c => c != '#')

/-- All rows have the same length (numpy's rectangularity requirement). -/
def allSameLength (rows : List (List ℚ)) : Bool :=
  match rows with
  | [] => true
  | r :: rest => rest.all (fun s => s.length == r.length)

/-- Model of `np.loadtxt` on a text file's content: split into physical lines, strip
comments, tokenize each line on whitespace, drop blank lines, parse every token
as a float, and require all rows to have the same width.  `none` models the
exceptions `loadtxt` raises (a non-numeric token or ragged rows); `some []`
models the empty-data result. -/
def loadtxtModel (content : String) : Option (List (List ℚ)) :=
  let rows := ((splitOnPred (fun c => c = '\n') content.data).map
      (fun l => pyTokens (stripComments l))).filter (fun r => !r.isEmpty)
  match rows.mapM (fun ts => ts.mapM pyParseFloat) with
  | none => none
  | some rs => if allSameLength rs then some rs else none

/-- The table produced by `parse_minutiae_file` (minutiae_extraction.py lines
269-294) before the degrees→radians step: `np.loadtxt` squeezes singleton
dimensions, the code reshapes a 1-D result to one row, and `data[:, 3]` needs
at least 4 columns — any failure (a `loadtxt` exception, a 0-d scalar, fewer
than 4 columns) is caught and yields the empty (0,4) table, modelled as `[]`. -/
def parse_minutiae_file_deg (content : String) : List (List ℚ) :=
  match loadtxtModel content with
  | none => []
  | some [] => []
  | some (r :: rest) =>
    if rest.isEmpty then
      if r.length ≤ 1 then [] else if 4 ≤ r.length then [r] else []
    else if r.length = 1 then
      let flat := (r :: rest).map (fun row => row.headD 0)
      if 4 ≤ flat.length then [flat] else []
    else if 4 ≤ r.length then r :: rest else []

/-- The exact rational value of the IEEE-754 double `np.pi`. -/
def piQ : ℚ := 884279719003555 / 281474976710656

/-- The in-place `data[:, 3] = data[:, 3] * np.pi / 180` of
`parse_minutiae_file`, applied to one row (index 3 scaled, all other entries
unchanged). -/
def radiansRow : ℕ → List ℚ → List ℚ
  | _, [] => []
  | i, q :: qs => (if i = 3 then q * piQ / 180 else q) :: radiansRow (i + 1) qs

/-- Model of `parse_minutiae_file`: the (N,4) table `[type, x, y, orientation_radians]`
loaded from a canonical minutiae text file; `[]` models the empty (0,4) table
returned on any parse error. -/
def parse_minutiae_file (content : String) : List (List ℚ) :=
  (parse_minutiae_file_deg content).map (radiansRow 0)

/-- Model of `astype(np.int32)` on a real value: truncation toward zero. -/
def truncQ (q : ℚ) : ℤ := if q < 0 then -⌊-q⌋ else ⌊q⌋

/-- The per-coordinate scaling of `create_minutiae_map`
(template_rendering.py lines 44-45): multiply by `target_dim / orig_dim`,
truncate with `astype(np.int32)`, and `clip(0, target_dim - 1)`. -/
def scaleIdx (v scale : ℚ) (dim : ℕ) : ℕ :=
  (max 0 (min (truncQ (v * scale)) ((dim : ℤ) - 1))).toNat

/-- Target row (the y coordinate, table column 2) of one minutia under
`create_minutiae_map`'s scaling. -/
def minutiaRow (row : List ℚ) (orig target : ℕ × ℕ) : ℕ :=
  scaleIdx (row.getD 2 0) ((target.1 : ℚ) / (orig.1 : ℚ)) target.1

/-- Target column (the x coordinate, table column 1) of one minutia under
`create_minutiae_map`'s scaling. -/
def minutiaCol (row : List ℚ) (orig target : ℕ × ℕ) : ℕ :=
  scaleIdx (row.getD 1 0) ((target.2 : ℚ) / (orig.2 : ℚ)) target.2

/-- Model of `create_minutiae_map` (template_rendering.py lines 19-50): a
`target_size` grid, zero everywhere except value 255 at the scaled-and-clipped
pixel of each minutia (the vectorized `minutiae_map[y_coords, x_coords] = 255`
is modelled as a fold; all writes store the same value, so write order is
immaterial).  The grid is the function sending (row, col) to the pixel value. -/
def create_minutiae_map (minutiae : List (List ℚ)) (orig target : ℕ × ℕ) :
    ℕ → ℕ → ℕ :=
  if minutiae.isEmpty then fun _ _ => 0
  else
    minutiae.foldl
      (fun g row => fun r c =>
        if r = minutiaRow row orig target ∧ c = minutiaCol row orig target then 255
        else g r c)
      (fun _ _ => 0)

/-- The external numeric routines used by the rendering stage, abstracted as
parameters: `cosF`/`sinF` model `np.cos`/`np.sin` on the stored orientation
value, `lineF` models `skimage.draw.line_nd` (returning (row, col) samples
between the two endpoints), and `blurM`/`blurO` model
`scipy.ndimage.gaussian_filter` at the two configured sigmas on a float32 copy
of a grid. -/
structure RenderParams where
  cosF : ℚ → ℚ
  sinF : ℚ → ℚ
  lineF : ℤ × ℤ → ℤ × ℤ → List (ℤ × ℤ)
  blurM : (ℕ → ℕ → ℕ) → ℕ → ℕ → ℚ
  blurO : (ℕ → ℕ → ℕ) → ℕ → ℕ → ℚ

/-- Model of `create_orientation_map` (template_rendering.py lines 52-105): for each
minutia, scale its coordinates (`int(...)` truncation, no clipping), compute
the second endpoint of a segment of length `int(line_length * scale_x)` along
its orientation (the y component negated for raster coordinates), rasterize the
segment with `line_nd`, keep only in-bounds samples, and set them to 255. -/
def create_orientation_map (p : RenderParams) (line_length : ℕ)
    (minutiae : List (List ℚ)) (orig target : ℕ × ℕ) : ℕ → ℕ → ℕ :=
  if minutiae.isEmpty then fun _ _ => 0
  else
    let sy : ℚ := (target.1 : ℚ) / (orig.1 : ℚ)
    let sx : ℚ := (target.2 : ℚ) / (orig.2 : ℚ)
    let scaledLen : ℤ := truncQ ((line_length : ℚ) * sx)
    minutiae.foldl
      (fun g row =>
        let xs : ℤ := truncQ (row.getD 1 0 * sx)
        let ys : ℤ := truncQ (row.getD 2 0 * sy)
        let x2 : ℤ := truncQ ((xs : ℚ) + (scaledLen : ℚ) * p.cosF (row.getD 3 0))
        let y2 : ℤ := truncQ ((ys : ℚ) - (scaledLen : ℚ) * p.sinF (row.getD 3 0))
        let coords := (p.lineF (ys, xs) (y2, x2)).filter
          (fun rc => decide (0 ≤ rc.1 ∧ rc.1 < (target.1 : ℤ) ∧ 0 ≤ rc.2 ∧ rc.2 < (target.2 : ℤ)))
        coords.foldl
          (fun g2 rc => fun r c => if (r : ℤ) = rc.1 ∧ (c : ℤ) = rc.2 then 255 else g2 r c)
          g)
      (fun _ _ => 0)

/-- Model of `np.clip(v, 0, 255).astype(np.uint8)` on one pixel. -/
def clipByte (q : ℚ) : ℕ := (truncQ (max 0 (min q 255))).toNat

/-- One channel of `create_template_image` (template_rendering.py lines
147-179): filter the table to the channel's type codes, return a zero grid when
nothing remains, otherwise blur the minutiae map and the orientation map,
multiply by the configured gains (`MINUTIAE_GAIN = 60`,
`ORIENTATION_GAIN = 3`, `ORIENTATION_LINE_LENGTH = 15`), sum, clip to
[0, 255] and cast to 8-bit. -/
def renderChannel (p : RenderParams) (channelTypes : List ℚ)
    (minutiae : List (List ℚ)) (orig target : ℕ × ℕ) : ℕ → ℕ → ℕ :=
  let filtered := minutiae.filter (fun row => decide (row.getD 0 0 ∈ channelTypes))
  if filtered.isEmpty then fun _ _ => 0
  else
    let mMap := create_minutiae_map filtered orig target
    let oMap := create_orientation_map p 15 filtered orig target
    fun r c => clipByte (p.blurM mMap r c * 60 + p.blurO oMap r c * 3)

/-- Model of `create_template_image` (template_rendering.py lines 107-184): three
channels — bifurcations (type 1), terminations (type 2), and either the
singular points (types 4 and 5) or an all-zero placeholder. -/
def create_template_image (p : RenderParams) (include_singular : Bool)
    (minutiae : List (List ℚ)) (orig target : ℕ × ℕ) :
    (ℕ → ℕ → ℕ) × (ℕ → ℕ → ℕ) × (ℕ → ℕ → ℕ) :=
  (renderChannel p [1] minutiae orig target,
   renderChannel p [2] minutiae orig target,
   if include_singular then renderChannel p [4, 5] minutiae orig target
   else fun _ _ => 0)

/-- Model of `create_template_from_file` (template_rendering.py lines 186-227): parse
the minutiae file; a zero-row table returns `none` (failure), otherwise render
the template at `target` with original size `orig` (the caller passes `orig =
target` when no original size is given). -/
def create_template_from_file (p : RenderParams) (include_singular : Bool)
    (orig target : ℕ × ℕ) (content : String) :
    Option ((ℕ → ℕ → ℕ) × (ℕ → ℕ → ℕ) × (ℕ → ℕ → ℕ)) :=
  let minutiae := parse_minutiae_file content
  if minutiae.length = 0 then none
  else some (create_template_image p include_singular minutiae orig target)

/-- Model of `extract_minutiae_from_folder` (minutiae_extraction.py lines 99-140): the
per-image work invokes the external `mindtct` binary, modelled by the oracle
`extractOk`; the loop increments `total` for every discovered image and
`successful` exactly when extraction succeeds. -/
def extractStep (extractOk : String → Bool) (st : ℕ × ℕ) (f : String) : ℕ × ℕ :=
  (st.1 + (if extractOk f then 1 else 0), st.2 + 1)

def extract_minutiae_from_folder (extractOk : String → Bool) (files : List String) : ℕ × ℕ :=
  files.foldl (extractStep extractOk) (0, 0)

/-- One iteration of the `convert_all_minutiae_files` loop: convert the file;
when conversion produced output, keep it and count a success only if its
non-blank line count reaches the minimum, otherwise the file is deleted
(dropped from the kept list); `total` always advances. -/
def convertStep (quality_threshold : ℚ) (min_minutiae_count : ℕ)
    (st : List (String × String) × ℕ × ℕ) (f : String × List String) :
    List (String × String) × ℕ × ℕ :=
  match convert_min_to_txt f.2 quality_threshold with
  | none => (st.1, st.2.1, st.2.2 + 1)
  | some content =>
    if min_minutiae_count ≤ countNonBlankLines content then
      (st.1 ++ [(f.1, content)], st.2.1 + 1, st.2.2 + 1)
    else (st.1, st.2.1, st.2.2 + 1)

/-- Model of `convert_all_minutiae_files` (minutiae_extraction.py lines 218-267) over a
directory modelled as a list of (name, lines of the `.min` file): each file is
converted independently; a converted file is kept, and counted successful, only
when its non-blank line count reaches `min_minutiae_count`, otherwise the
written file is deleted.  Returns (kept output files, successful, total). -/
def convert_all_minutiae_files (files : List (String × List String))
    (quality_threshold : ℚ) (min_minutiae_count : ℕ) :
    List (String × String) × ℕ × ℕ :=
  files.foldl (convertStep quality_threshold min_minutiae_count) ([], 0, 0)

/-- One iteration of the `create_templates_from_folder` loop: a success needs
both a created template and a successful save. -/
def templateStep (p : RenderParams) (saveOk : String → Bool) (include_singular : Bool)
    (target : ℕ × ℕ) (st : ℕ × ℕ) (f : String × String) : ℕ × ℕ :=
  match create_template_from_file p include_singular target target f.2 with
  | some _ => if saveOk f.1 then (st.1 + 1, st.2 + 1) else (st.1, st.2 + 1)
  | none => (st.1, st.2 + 1)

/-- Model of `create_templates_from_folder` (template_rendering.py lines 229-283) over a
directory modelled as a list of (name, content): `total` is incremented for
every `.txt` file, `successful` exactly when the template is created and the
save (`plt.imsave`, an external call modelled by the oracle `saveOk`)
succeeds. -/
def create_templates_from_folder (p : RenderParams) (saveOk : String → Bool)
    (include_singular : Bool) (target : ℕ × ℕ) (files : List (String × String)) : ℕ × ℕ :=
  files.foldl (templateStep p saveOk include_singular target) (0, 0)

/-- Python banker's rounding `round()`, used to state what the spec's
"round(x·W'/W)" would be. -/
def pyRound (q : ℚ) : ℤ :=
  if q - ⌊q⌋ < 1 / 2 then ⌊q⌋
  else if 1 / 2 < q - ⌊q⌋ then ⌊q⌋ + 1
  else if ⌊q⌋ % 2 = 0 then ⌊q⌋ else ⌊q⌋ + 1

/-- A concrete instantiation of the external numeric routines (all trivial),
used to evaluate the rendering pipeline's control flow at concrete inputs. -/
def trivialRenderParams : RenderParams :=
  ⟨fun _ => 0, fun _ => 0, fun _ _ => [], fun _ _ _ => 0, fun _ _ _ => 0⟩

unseal Rat.mul Rat.add Rat.sub Rat.inv Rat.ofScientific

lemma pyMod_sub_right (a b : ℚ) : pyMod (a - b) b = pyMod a b := by
  unfold pyMod
  rcases eq_or_ne b 0 with hb | hb
  · simp [hb]
  · have h : (a - b) / b = a / b - 1 := by
      field_simp
    rw [h]
    rw [show (a / b - 1 : ℚ) = a / b - (1 : ℤ) by push_cast; ring]
    rw [Int.floor_sub_int]
    push_cast
    ring

/-- C3: the angle conversion of `convert_min_to_txt` is
`(90 - 11.25*u) mod 360`; direction unit 0 maps to 90 degrees, 8 maps to 0
degrees, and `u` and `u + 32` map to the same angle for every integer `u`. -/
theorem c3_orientation_quantization :
    orientationDeg 0 = 90 ∧ orientationDeg 8 = 0 ∧
    ∀ u : ℤ, orientationDeg (u + 32) = orientationDeg u := by
  refine ⟨by decide, by decide, fun u => ?_⟩
  unfold orientationDeg
  rw [show (90 - 11.25 * ((u + 32 : ℤ) : ℚ) : ℚ) = (90 - 11.25 * (u : ℚ)) - 360 by
    push_cast; norm_num; ring]
  exact pyMod_sub_right _ _

/-- C1: evaluation of the conversion/re-parse round trip at a concrete record
(type 1, x = 10, y = 20, direction unit 0, quality 0.9).  `convert_min_to_txt`
writes the record followed by a literal backslash and `n` (the source's
`f"{data}\\n"` escapes the backslash), so the written file is a single physical
line whose last token `90.0\n` is not numeric; re-reading it with
`parse_minutiae_file` therefore fails and returns the empty (0,4) table instead
of recovering the record. -/
theorem c1_roundtrip_newline_bug :
    convert_min_to_txt ["h1", "h2", "h3", "1:10,20:0:0.9:RIG,BIF"] 0
      = some "1 10 20 90.0\\n"
    ∧ parse_minutiae_file "1 10 20 90.0\\n" = [] := by
  constructor
  · decide
  · decide

/-- C4 counterexample: on the claim's raw detector file — header plus the
records `id:10,20:0:TYP_BIF:0.9` and `id:30,40:8:TYP_OTH:0.9` —
`convert_min_to_txt` with threshold 0.0 produces no output at all (the code
parses the 4th colon-field as the quality float, and `float("TYP_BIF")` fails,
so both records are skipped), not the two claimed canonical lines. -/
theorem c4_scenario_counterexample :
    convert_min_to_txt
      ["h1", "h2", "h3", "id:10,20:0:TYP_BIF:0.9", "id:30,40:8:TYP_OTH:0.9"] 0
      = none := by
  decide

/-- C4 amended: with the detector's actual field order (quality 4th, type 5th),
the same scenario converts to the records `1 10 20 90.0` and `2 30 40 0.0` —
but they are joined by the literal two-character sequence `\` `n` on one
physical line, and `parse_minutiae_file` on that result yields the empty (0,4)
table, not a (2,4) table. -/
theorem c4_scenario_amended :
    convert_min_to_txt
      ["h1", "h2", "h3", "id:10,20:0:0.9:TYP_BIF", "id:30,40:8:0.9:TYP_OTH"] 0
      = some "1 10 20 90.0\\n2 30 40 0.0\\n"
    ∧ parse_minutiae_file "1 10 20 90.0\\n2 30 40 0.0\\n" = [] := by
  constructor
  · decide
  · decide

lemma minutiae_fold_eq (minutiae : List (List ℚ)) (orig target : ℕ × ℕ)
    (g : ℕ → ℕ → ℕ) (r c : ℕ) :
    (minutiae.foldl
      (fun g2 row => fun r2 c2 =>
        if r2 = minutiaRow row orig target ∧ c2 = minutiaCol row orig target then 255
        else g2 r2 c2) g) r c
    = if ∃ row ∈ minutiae, r = minutiaRow row orig target ∧ c = minutiaCol row orig target
      then 255 else g r c := by
  induction minutiae generalizing g with
  | nil => simp
  | cons row rest ih =>
    simp only [List.foldl_cons, ih, List.mem_cons, exists_eq_or_imp]
    by_cases hhead : r = minutiaRow row orig target ∧ c = minutiaCol row orig target <;>
      by_cases hrest : ∃ row2 ∈ rest,
        r = minutiaRow row2 orig target ∧ c = minutiaCol row2 orig target <;>
      simp [hhead, hrest]

/-- C2 (amended): `create_minutiae_map` marks exactly the pixels obtained by
scaling each point's x by `W'/W` and y by `H'/H`, TRUNCATING toward zero
(`astype(np.int32)`), not rounding, then clipping into `[0, target_dim - 1]`;
every other pixel is 0. -/
theorem c2_create_minutiae_map_trunc (minutiae : List (List ℚ))
    (orig target : ℕ × ℕ) (r c : ℕ) :
    create_minutiae_map minutiae orig target r c
    = if ∃ row ∈ minutiae, r = minutiaRow row orig target ∧ c = minutiaCol row orig target
      then 255 else 0 := by
  unfold create_minutiae_map
  rcases minutiae with _ | ⟨row, rest⟩
  · simp
  · rw [if_neg (by simp)]
    exact minutiae_fold_eq (row :: rest) orig target (fun _ _ => 0) r c

/-- C2 counterexample: the point (x,y) = (1,1) with original size (2,2) and
target size (3,3) scales to 1·(3/2) = 1.5 on both axes; the claim's
`round(1.5) = 2` (Python banker's rounding) predicts pixel (2,2), but
`create_minutiae_map` leaves (2,2) at 0 and marks the truncated pixel (1,1)
instead. -/
theorem c2_round_counterexample :
    pyRound ((1 : ℚ) * ((3 : ℚ) / 2)) = 2
    ∧ create_minutiae_map [[1, 1, 1, 0]] (2, 2) (3, 3) 2 2 = 0
    ∧ create_minutiae_map [[1, 1, 1, 0]] (2, 2) (3, 3) 1 1 = 255 := by
  refine ⟨by decide, by decide, by decide⟩

/-- C6: when every record line after the 3-line header fails parsing or the
quality filter, `convert_min_to_txt` returns `none` — the failure signal — and
writes no output content at all (not an empty file). -/
theorem c6_empty_conversion_none (lines : List String) (qt : ℚ)
    (h : ∀ l ∈ lines.drop 3, parse_record_line qt l = none) :
    convert_min_to_txt lines qt = none := by
  unfold convert_min_to_txt
  rw [List.filterMap_eq_nil_iff.mpr h]
  simp

/-- C6 witness: a file whose single record has quality 0.9 below the threshold
1.0 produces no output. -/
theorem c6_empty_conversion_none_witness :
    convert_min_to_txt ["h1", "h2", "h3", "1:10,20:0:0.9:BIF"] 1 = none :=
  c6_empty_conversion_none ["h1", "h2", "h3", "1:10,20:0:0.9:BIF"] 1 (by decide)

lemma parse_record_line_short (qt : ℚ) (line : String)
    (h : (recordFields line).length < 5) : parse_record_line qt line = none := by
  unfold parse_record_line
  rcases hf : recordFields line with _ | ⟨f0, _ | ⟨f1, _ | ⟨f2, _ | ⟨f3, _ | ⟨f4, rest⟩⟩⟩⟩⟩
  · simp
  · simp
  · simp
  · simp
  · simp
  · rw [hf] at h
    simp only [List.length_cons] at h
    omega

/-- C8: a single malformed record line — one with fewer than the 5 required
colon-separated fields, or any line the per-record parser rejects (non-numeric
values included) — is skipped individually by `convert_min_to_txt`: conversion
of the file equals conversion of the same file with the bad line removed, so
the remaining well-formed lines are still converted and one bad line never
aborts the whole file. -/
theorem c8_malformed_line_skipped (h1 h2 h3 bad : String)
    (pre post : List String) (qt : ℚ)
    (hbad : (recordFields bad).length < 5 ∨ parse_record_line qt bad = none) :
    convert_min_to_txt (h1 :: h2 :: h3 :: (pre ++ bad :: post)) qt
      = convert_min_to_txt (h1 :: h2 :: h3 :: (pre ++ post)) qt := by
  have hb : parse_record_line qt bad = none := by
    rcases hbad with hlt | hn
    · exact parse_record_line_short qt bad hlt
    · exact hn
  unfold convert_min_to_txt
  simp [List.filterMap_append, List.filterMap_cons, hb]

/-- C8 witness: the 3-field line `1:2,3` is dropped while the two well-formed
records around it convert; the surviving conversion output is evaluated
explicitly. -/
theorem c8_malformed_line_skipped_witness :
    convert_min_to_txt
        ["h1", "h2", "h3", "1:10,20:0:0.9:BIF", "1:2,3", "2:30,40:8:0.9:OTH"] 0
      = convert_min_to_txt ["h1", "h2", "h3", "1:10,20:0:0.9:BIF", "2:30,40:8:0.9:OTH"] 0
    ∧ convert_min_to_txt ["h1", "h2", "h3", "1:10,20:0:0.9:BIF", "2:30,40:8:0.9:OTH"] 0
      = some "1 10 20 90.0\\n2 30 40 0.0\\n" := by
  constructor
  · exact c8_malformed_line_skipped "h1" "h2" "h3" "1:2,3"
      ["1:10,20:0:0.9:BIF"] ["2:30,40:8:0.9:OTH"] 0 (Or.inl (by decide))
  · decide

lemma convertStep_fold_mem (qt : ℚ) (m : ℕ) (files : List (String × List String)) :
    ∀ (init : List (String × String) × ℕ × ℕ) (f : String × String),
      f ∈ (files.foldl (convertStep qt m) init).1 →
      f ∈ init.1 ∨ (m ≤ countNonBlankLines f.2
        ∧ ∃ src ∈ files, convert_min_to_txt src.2 qt = some f.2) := by
  induction files with
  | nil => intro init f hf; exact Or.inl hf
  | cons a rest ih =>
    intro init f hf
    rw [List.foldl_cons] at hf
    rcases ih (convertStep qt m init a) f hf with hin | ⟨hc, src, hs, he⟩
    · unfold convertStep at hin
      rcases hconv : convert_min_to_txt a.2 qt with _ | content
      · rw [hconv] at hin
        exact Or.inl hin
      · rw [hconv] at hin
        dsimp only at hin
        by_cases hcnt : m ≤ countNonBlankLines content
        · rw [if_pos hcnt] at hin
          rcases List.mem_append.mp hin with hin2 | hin2
          · exact Or.inl hin2
          · have hfa : f = (a.1, content) := List.mem_singleton.mp hin2
            subst hfa
            exact Or.inr ⟨hcnt, a, List.mem_cons_self a rest, hconv⟩
        · rw [if_neg hcnt] at hin
          exact Or.inl hin
    · exact Or.inr ⟨hc, src, List.mem_cons_of_mem a hs, he⟩

/-- C5: after batch conversion, every file kept in the output directory has at
least `min_minutiae_count` non-blank lines (in particular at least 5 when the
threshold is 5), and it is the conversion output of one of the inputs —
converted files below the threshold are deleted and do not appear. -/
theorem c5_min_count_invariant (files : List (String × List String)) (qt : ℚ) (m : ℕ) :
    ∀ f ∈ (convert_all_minutiae_files files qt m).1,
      m ≤ countNonBlankLines f.2
        ∧ ∃ src ∈ files, convert_min_to_txt src.2 qt = some f.2 := by
  intro f hf
  rcases convertStep_fold_mem qt m files ([], 0, 0) f hf with hin | h
  · exact absurd hin (List.not_mem_nil f)
  · exact h

/-- C5 witness: with minimum count 1, a converted file survives and the
invariant is discharged at it. -/
theorem c5_min_count_invariant_witness :
    1 ≤ countNonBlankLines "1 10 20 90.0\\n"
    ∧ ∃ src ∈ [("a", ["h1", "h2", "h3", "1:10,20:0:0.9:BIF"])],
        convert_min_to_txt src.2 0 = some "1 10 20 90.0\\n" :=
  c5_min_count_invariant [("a", ["h1", "h2", "h3", "1:10,20:0:0.9:BIF"])] 0 1
    ("a", "1 10 20 90.0\\n") (by decide)

/-- C7: a minutiae file whose loaded table has zero rows makes
`create_template_from_file` report failure (`none`) — it never renders an
all-zero raster — for every instantiation of the external numeric routines,
every singular-point mode and every size configuration. -/
theorem c7_empty_template_none (p : RenderParams) (incl : Bool)
    (orig target : ℕ × ℕ) (content : String)
    (h : (parse_minutiae_file content).length = 0) :
    create_template_from_file p incl orig target content = none := by
  unfold create_template_from_file
  simp [h]

/-- C7 witness: a file that parses to the empty table produces no template. -/
theorem c7_empty_template_none_witness :
    create_template_from_file trivialRenderParams false (512, 512) (512, 512)
      "not numbers" = none :=
  c7_empty_template_none trivialRenderParams false (512, 512) (512, 512)
    "not numbers" (by decide)

lemma radiansRow_length (i : ℕ) (r : List ℚ) : (radiansRow i r).length = r.length := by
  induction r generalizing i with
  | nil => rfl
  | cons q qs ih => simp [radiansRow, ih]

lemma allSameLength_spec (rows : List (List ℚ)) (h : allSameLength rows = true) :
    ∀ r ∈ rows, ∀ s ∈ rows, r.length = s.length := by
  cases rows with
  | nil => simp
  | cons a rest =>
    unfold allSameLength at h
    simp only [List.all_eq_true, beq_iff_eq] at h
    intro r hr s hs
    rcases List.mem_cons.mp hr with rfl | hr2 <;> rcases List.mem_cons.mp hs with rfl | hs2
    · rfl
    · exact (h s hs2).symm
    · exact h r hr2
    · exact (h r hr2).trans (h s hs2).symm

lemma loadtxt_sameLength (content : String) (rows : List (List ℚ))
    (h : loadtxtModel content = some rows) : allSameLength rows = true := by
  unfold loadtxtModel at h
  dsimp only at h
  split at h
  · simp at h
  · rename_i rs hmapm
    split at h
    · rename_i hguard
      injection h with h2
      subst h2
      exact hguard
    · simp at h

lemma parse_deg_shape (content : String) :
    (∀ r ∈ parse_minutiae_file_deg content, 4 ≤ r.length)
    ∧ ∀ r ∈ parse_minutiae_file_deg content, ∀ s ∈ parse_minutiae_file_deg content,
        r.length = s.length := by
  rcases hl : loadtxtModel content with _ | rows
  · have he : parse_minutiae_file_deg content = [] := by
      unfold parse_minutiae_file_deg
      rw [hl]
    rw [he]
    simp
  · have hsame := allSameLength_spec rows (loadtxt_sameLength content rows hl)
    rcases rows with _ | ⟨r, rest⟩
    · have he : parse_minutiae_file_deg content = [] := by
        unfold parse_minutiae_file_deg
        rw [hl]
      rw [he]
      simp
    · rcases rest with _ | ⟨r2, rest2⟩
      · by_cases h1 : r.length ≤ 1
        · have he : parse_minutiae_file_deg content = [] := by
            unfold parse_minutiae_file_deg
            rw [hl]
            dsimp only
            rw [if_pos (by simp), if_pos h1]
          rw [he]
          simp
        · by_cases h4 : 4 ≤ r.length
          · have he : parse_minutiae_file_deg content = [r] := by
              unfold parse_minutiae_file_deg
              rw [hl]
              dsimp only
              rw [if_pos (by simp), if_neg h1, if_pos h4]
            rw [he]
            constructor
            · intro s hs
              rw [List.mem_singleton.mp hs]
              exact h4
            · intro s hs t ht
              rw [List.mem_singleton.mp hs, List.mem_singleton.mp ht]
          · have he : parse_minutiae_file_deg content = [] := by
              unfold parse_minutiae_file_deg
              rw [hl]
              dsimp only
              rw [if_pos (by simp), if_neg h1, if_neg h4]
            rw [he]
            simp
      · by_cases h1 : r.length = 1
        · by_cases h4 : 4 ≤ (List.map (fun row => row.headD 0) (r :: r2 :: rest2)).length
          · have he : parse_minutiae_file_deg content
                = [List.map (fun row => row.headD 0) (r :: r2 :: rest2)] := by
              unfold parse_minutiae_file_deg
              rw [hl]
              dsimp only
              rw [if_neg (by simp), if_pos h1, if_pos h4]
            rw [he]
            constructor
            · intro s hs
              rw [List.mem_singleton.mp hs]
              exact h4
            · intro s hs t ht
              rw [List.mem_singleton.mp hs, List.mem_singleton.mp ht]
          · have he : parse_minutiae_file_deg content = [] := by
              unfold parse_minutiae_file_deg
              rw [hl]
              dsimp only
              rw [if_neg (by simp), if_pos h1, if_neg h4]
            rw [he]
            simp
        · by_cases h4 : 4 ≤ r.length
          · have he : parse_minutiae_file_deg content = r :: r2 :: rest2 := by
              unfold parse_minutiae_file_deg
              rw [hl]
              dsimp only
              rw [if_neg (by simp), if_neg h1, if_pos h4]
            rw [he]
            refine ⟨?_, ?_⟩
            · intro s hs
              rw [hsame s hs r (List.mem_cons_self r (r2 :: rest2))]
              exact h4
            · exact hsame
          · have he : parse_minutiae_file_deg content = [] := by
              unfold parse_minutiae_file_deg
              rw [hl]
              dsimp only
              rw [if_neg (by simp), if_neg h1, if_neg h4]
            rw [he]
            simp

/-- C9: `parse_minutiae_file` is total by construction and always returns a
rectangular two-dimensional table: every row has the same length, at least 4;
any `loadtxt` parse error yields the empty (0,4) table; and a file holding
exactly one well-formed 4-value record yields a (1,4) table, never a 1-D
vector. -/
theorem c9_parse_shape (content : String) :
    (∀ r ∈ parse_minutiae_file content, 4 ≤ r.length)
    ∧ (∀ r ∈ parse_minutiae_file content, ∀ s ∈ parse_minutiae_file content,
        r.length = s.length)
    ∧ (loadtxtModel content = none → parse_minutiae_file content = [])
    ∧ (∀ row, loadtxtModel content = some [row] → row.length = 4 →
        (parse_minutiae_file content).length = 1
        ∧ ∀ r ∈ parse_minutiae_file content, r.length = 4) := by
  obtain ⟨hw, hu⟩ := parse_deg_shape content
  refine ⟨?_, ?_, ?_, ?_⟩
  · intro r hr
    rcases List.mem_map.mp hr with ⟨rd, hrd, rfl⟩
    rw [radiansRow_length]
    exact hw rd hrd
  · intro r hr s hs
    rcases List.mem_map.mp hr with ⟨rd, hrd, rfl⟩
    rcases List.mem_map.mp hs with ⟨sd, hsd, rfl⟩
    rw [radiansRow_length, radiansRow_length]
    exact hu rd hrd sd hsd
  · intro hnone
    unfold parse_minutiae_file parse_minutiae_file_deg
    rw [hnone]
    rfl
  · intro row hrow h4
    have hdeg : parse_minutiae_file_deg content = [row] := by
      unfold parse_minutiae_file_deg
      rw [hrow]
      simp [h4]
    constructor
    · unfold parse_minutiae_file
      rw [hdeg]
      rfl
    · intro r hr
      unfold parse_minutiae_file at hr
      rw [hdeg] at hr
      rcases List.mem_map.mp hr with ⟨rd, hrd, rfl⟩
      rcases List.mem_singleton.mp hrd with rfl
      rw [radiansRow_length]
      exact h4

/-- C9 witness: a canonical file holding exactly one record parses to a (1,4)
table. -/
theorem c9_parse_shape_witness :
    (parse_minutiae_file "1 10 20 90.0").length = 1
    ∧ ∀ r ∈ parse_minutiae_file "1 10 20 90.0", r.length = 4 :=
  (c9_parse_shape "1 10 20 90.0").2.2.2 [(1 : ℚ), 10, 20, 90] (by decide) (by decide)

lemma counter_fold {α σ : Type} (step : σ → α → σ) (proj : σ → ℕ × ℕ)
    (hstep : ∀ st a, (proj (step st a)).2 = (proj st).2 + 1
      ∧ (proj st).1 ≤ (proj (step st a)).1
      ∧ (proj (step st a)).1 ≤ (proj st).1 + 1)
    (files : List α) :
    ∀ st, (proj st).1 ≤ (proj st).2 →
      (proj (files.foldl step st)).1 ≤ (proj (files.foldl step st)).2
      ∧ (proj (files.foldl step st)).2 = (proj st).2 + files.length := by
  induction files with
  | nil => intro st h; exact ⟨h, by simp⟩
  | cons a rest ih =>
    intro st h
    rw [List.foldl_cons]
    obtain ⟨ht, hl, hu⟩ := hstep st a
    obtain ⟨h1, h2⟩ := ih (step st a) (by omega)
    refine ⟨h1, ?_⟩
    rw [h2, ht]
    simp only [List.length_cons]
    omega

lemma extractStep_count (ok : String → Bool) (st : ℕ × ℕ) (a : String) :
    (extractStep ok st a).2 = st.2 + 1
    ∧ st.1 ≤ (extractStep ok st a).1
    ∧ (extractStep ok st a).1 ≤ st.1 + 1 := by
  unfold extractStep
  refine ⟨rfl, ?_, ?_⟩ <;> dsimp only <;> split <;> omega

lemma convertStep_count (qt : ℚ) (m : ℕ) (st : List (String × String) × ℕ × ℕ)
    (a : String × List String) :
    ((convertStep qt m st a).2.1, (convertStep qt m st a).2.2).2 = (st.2.1, st.2.2).2 + 1
    ∧ (st.2.1, st.2.2).1 ≤ ((convertStep qt m st a).2.1, (convertStep qt m st a).2.2).1
    ∧ ((convertStep qt m st a).2.1, (convertStep qt m st a).2.2).1 ≤ (st.2.1, st.2.2).1 + 1 := by
  unfold convertStep
  rcases convert_min_to_txt a.2 qt with _ | content
  · exact ⟨rfl, Nat.le_refl _, Nat.le_succ _⟩
  · dsimp only
    by_cases h : m ≤ countNonBlankLines content
    · rw [if_pos h]
      exact ⟨rfl, Nat.le_succ _, Nat.le_refl _⟩
    · rw [if_neg h]
      exact ⟨rfl, Nat.le_refl _, Nat.le_succ _⟩

lemma templateStep_count (p : RenderParams) (saveOk : String → Bool) (incl : Bool)
    (target : ℕ × ℕ) (st : ℕ × ℕ) (a : String × String) :
    (templateStep p saveOk incl target st a).2 = st.2 + 1
    ∧ st.1 ≤ (templateStep p saveOk incl target st a).1
    ∧ (templateStep p saveOk incl target st a).1 ≤ st.1 + 1 := by
  unfold templateStep
  rcases create_template_from_file p incl target target a.2 with _ | tmpl
  · exact ⟨rfl, Nat.le_refl _, Nat.le_succ _⟩
  · dsimp only
    by_cases h : saveOk a.1 = true
    · rw [if_pos h]
      exact ⟨rfl, Nat.le_succ _, Nat.le_refl _⟩
    · rw [if_neg h]
      exact ⟨rfl, Nat.le_refl _, Nat.le_succ _⟩

/-- C10: every batch operation — minutiae extraction over a folder, batch
conversion, and batch template creation — returns a pair (succeeded, total)
with succeeded ≤ total and total equal to the number of discovered input
files, regardless of how many individual items fail (succeeded ≥ 0 holds by
the type). -/
theorem c10_batch_counters :
    (∀ (ok : String → Bool) (files : List String),
      (extract_minutiae_from_folder ok files).1 ≤ (extract_minutiae_from_folder ok files).2
      ∧ (extract_minutiae_from_folder ok files).2 = files.length)
    ∧ (∀ (files : List (String × List String)) (qt : ℚ) (m : ℕ),
      (convert_all_minutiae_files files qt m).2.1 ≤ (convert_all_minutiae_files files qt m).2.2
      ∧ (convert_all_minutiae_files files qt m).2.2 = files.length)
    ∧ (∀ (p : RenderParams) (saveOk : String → Bool) (incl : Bool) (target : ℕ × ℕ)
        (files : List (String × String)),
      (create_templates_from_folder p saveOk incl target files).1
        ≤ (create_templates_from_folder p saveOk incl target files).2
      ∧ (create_templates_from_folder p saveOk incl target files).2 = files.length) := by
  refine ⟨?_, ?_, ?_⟩
  · intro ok files
    have h := counter_fold (extractStep ok) (fun st => st) (extractStep_count ok)
      files (0, 0) (Nat.le_refl 0)
    exact ⟨h.1, by simpa using h.2⟩
  · intro files qt m
    have h := counter_fold (convertStep qt m) (fun st => (st.2.1, st.2.2))
      (convertStep_count qt m) files ([], 0, 0) (Nat.le_refl 0)
    exact ⟨h.1, by simpa using h.2⟩
  · intro p saveOk incl target files
    have h := counter_fold (templateStep p saveOk incl target) (fun st => st)
      (templateStep_count p saveOk incl target) files (0, 0) (Nat.le_refl 0)
    exact ⟨h.1, by simpa using h.2⟩
